import Mathlib

/-!
# Verification of the aw-qt process supervisor (`aw_qt/manager.py`)

Shallow embedding of the module-manager of the repository: the executable
resolver `_locate_executable`, the `Module` handle with its lifecycle
operations (`start`, `stop`, `toggle`, `is_alive`, `stderr`), and the
registry-level `get_unexpected_stops`, together with theorems settling the
frozen claims about them.

Modelling conventions:
- The operating system is a `OS` value mapping pids to their exit status
  (`none` while the process has not exited).  `Popen.poll()` is the pure
  read of that map into the handle's cached `returncode`.
- The supervisor's own process is a `Sup` value carrying its pid and
  process-group id; `os.setpgrp()` sets `pgid := pid`; a spawned child
  inherits the spawner's current pgid.
- Python exceptions are explicit: each stateful operation returns a record
  with an `exc : Option String` field (`none` = returned normally) next to
  the post-state at the point of return or raise.
- `subprocess.Popen(cmd, universal_newlines=True)` is spawned without
  `stderr=PIPE`, so the Popen object's `stderr` attribute is `None`; the
  `stderrPipe` field of a spawned `Proc` is accordingly `none`, and calling
  `.read()` on it raises `AttributeError`.
-/

namespace AwQt

/-- OS-level view of processes: for each pid, `some code` once the process
has exited with that status, `none` while it is still running. -/
structure OS where
  exited : Nat → Option Int

/-- The supervisor's own process: its pid and its process-group id. -/
structure Sup where
  pid : Nat
  pgid : Nat

/-- A `subprocess.Popen` handle: the child's pid, the process-group id it
was placed in at spawn time, the cached `returncode` (set by `poll()` /
`wait()`), and the `stderr` attribute (`some` only if the process was
spawned with `stderr=PIPE`; `manager.py` never does, so spawned processes
carry `none`). -/
structure Proc where
  pid : Nat
  pgid : Nat
  returncode : Option Int
  stderrPipe : Option String
deriving DecidableEq

/-- The world threaded through the stateful operations: the OS process
table and the supervisor's own process state. -/
structure World where
  os : OS
  sup : Sup

/-- `Popen.poll()`: non-blocking; if the OS reports the process exited,
record its status in `returncode`; an already-recorded status is kept. -/
def pollProc (os : OS) (p : Proc) : Proc :=
  if p.returncode.isSome then p
  else { p with returncode := os.exited p.pid }

/-- `terminate()` followed by the blocking `wait()` of `Module.stop`:
afterwards the OS reports the process as exited (keeping its prior status
if it had already exited on its own; `-15` models death by SIGTERM). -/
def OS.terminateWait (os : OS) (pid : Nat) : OS :=
  { exited := fun q =>
      if q = pid then (os.exited q).getD (-15) |> some
      else os.exited q }

/-- File-system and platform environment of the supervisor: the predicate
`isfile`, the directory holding `manager.py` and its parent, the platform
name, and the launch mechanism (`some pid` when `Popen` succeeds, `none`
when it raises, e.g. `FileNotFoundError`). -/
structure Env where
  platform : String
  isfile : String → Bool
  currDir : String
  parentDir : String
  spawnPid : List String → Option Nat

/-- `os.path.join` for the two absolute candidate directories. -/
def joinPath (dir file : String) : String := dir ++ "/" ++ file

/-- The `for exec_path in exec_paths: if os.path.isfile(exec_path)` loop:
first path in the list that is a file, if any. -/
def findFirstFile (isfile : String → Bool) : List String → Option String
  | [] => none
  | p :: rest => if isfile p then some p else findFirstFile isfile rest

/-- `_locate_executable(name)`: search `[curr_dir, parent_dir]` for a file
named `name`, return the first full path found as a one-element cmd list;
fall back to the bare `[name]` otherwise.  Total: no error is possible. -/
def _locate_executable (env : Env) (name : String) : List String :=
  let search_paths := [env.currDir, env.parentDir]
  let exec_paths := search_paths.map (fun path => joinPath path name)
  match findFirstFile env.isfile exec_paths with
  | some exec_path => [exec_path]
  | none => [name]

/-- The `Module` handle of `manager.py`. -/
structure Module where
  name : String
  started : Bool
  _process : Option Proc
  _last_process : Option Proc
  _log : String
deriving DecidableEq

/-- `Module.__init__(name)`. -/
def Module.init (name : String) : Module :=
  { name := name, started := false, _process := none,
    _last_process := none, _log := "" }

/-- `Module.is_alive()`: `False` if no process was ever recorded; otherwise
poll the OS (which mutates the Popen handle's cached `returncode`) and
return `True` iff `returncode` is still `None`.  Total: never raises. -/
def Module.is_alive (os : OS) (m : Module) : Bool × Module :=
  match m._process with
  | none => (false, m)
  | some p =>
    let p' := pollProc os p
    (p'.returncode.isNone, { m with _process := some p' })

/-- Result of `Module.start`: the outcome (`exc = none` iff it returned
normally), the handle and world at the point of return or raise, and the
cmd list handed to `subprocess.Popen`. -/
structure StartRes where
  exc : Option String
  module : Module
  world : World
  cmd : List String

/-- `os.setpgrp()` guarded by the platform test of `Module.start`: on
non-Windows platforms the supervisor process becomes the leader of its own
(new) process group. -/
def setpgrp (platform : String) (sup : Sup) : Sup :=
  if platform = "Windows" then sup else { sup with pgid := sup.pid }

/-- The cmd list `Module.start` hands to `Popen`: the resolved executable,
with `--testing` appended exactly when `testing` is set. -/
def startCmd (env : Env) (testing : Bool) (name : String) : List String :=
  if testing then _locate_executable env name ++ ["--testing"]
  else _locate_executable env name

/-- The `Popen` object created by a successful spawn: fresh pid, the
spawner's current process group (inherited), no exit status yet, and the
`stderr` attribute `None` since the process is spawned without
`stderr=PIPE`. -/
def spawnedProc (pid pgid : Nat) : Proc :=
  { pid := pid, pgid := pgid, returncode := none, stderrPipe := none }

/-- `Module.start(testing)`: become a process-group leader via
`os.setpgrp()` on non-Windows platforms, resolve the executable, append
`--testing` iff `testing`, spawn (stdout/stderr inherited, not piped — the
child inherits the spawner's process group), and only then set
`started = True`.  A `Popen` failure propagates: neither `started` nor
`_process` has been assigned at that point. -/
def Module.start (env : Env) (testing : Bool) (w : World) (m : Module) :
    StartRes :=
  match env.spawnPid (startCmd env testing m.name) with
  | none =>
    { exc := some "FileNotFoundError", module := m,
      world := { w with sup := setpgrp env.platform w.sup },
      cmd := startCmd env testing m.name }
  | some pid =>
    { exc := none,
      module := { m with started := true,
                         _process := some (spawnedProc pid (setpgrp env.platform w.sup).pgid) },
      world := { w with sup := setpgrp env.platform w.sup },
      cmd := startCmd env testing m.name }

/-- Warnings and info messages `Module.stop` can log. -/
inductive Ev where
  | warnNotStarted
  | warnNotRunning
deriving DecidableEq

/-- Result of `Module.stop` / `Module.toggle`. -/
structure StopRes where
  exc : Option String
  module : Module
  world : World
  evs : List Ev

/-- `wait()`'s effect on the Popen handle: record the exit status the OS
now reports (keeping an already-recorded one). -/
def waitedProc (os : OS) (p : Proc) : Proc :=
  { p with returncode := (p.returncode).orElse (fun _ => os.exited p.pid) }

/-- The tail of `Module.stop` shared by every non-early-return path:
`assert not self.is_alive()`, then move `_process` into `_last_process`,
clear `_process`, clear `started`. -/
def stopFinish (w : World) (m : Module) (evs : List Ev) : StopRes :=
  if (m.is_alive w.os).1 then
    { exc := some "AssertionError", module := (m.is_alive w.os).2,
      world := w, evs := evs }
  else
    { exc := none,
      module := { (m.is_alive w.os).2 with
                    _last_process := (m.is_alive w.os).2._process,
                    _process := none, started := false },
      world := w, evs := evs }

/-- `Module.stop()`: warn-and-return if not `started`; warn (but proceed to
clear state) if `started` but not alive; otherwise `terminate()` then block
in `wait()` until the process has exited.  All paths then run the assertion
and the state-clearing tail. -/
def Module.stop (w : World) (m : Module) : StopRes :=
  if !m.started then
    { exc := none, module := m, world := w, evs := [Ev.warnNotStarted] }
  else if !(m.is_alive w.os).1 then
    stopFinish w (m.is_alive w.os).2 [Ev.warnNotRunning]
  else
    match (m.is_alive w.os).2._process with
    | none =>
      -- `self._process.terminate()` on `None` would raise; unreachable
      -- because `alive = true` forces `_process` to be `some`.
      { exc := some "AttributeError", module := (m.is_alive w.os).2,
        world := w, evs := [] }
    | some p =>
      stopFinish { w with os := w.os.terminateWait p.pid }
        { (m.is_alive w.os).2 with
            _process := some (waitedProc (w.os.terminateWait p.pid) p) }
        []

/-- `Module.toggle(testing)`: `stop()` if `started` else `start(testing)`. -/
def Module.toggle (env : Env) (testing : Bool) (w : World) (m : Module) :
    StopRes :=
  if m.started then
    m.stop w
  else
    { exc := (m.start env testing w).exc,
      module := (m.start env testing w).module,
      world := (m.start env testing w).world, evs := [] }

/-- Result of `Module.stderr`: outcome, returned text (meaningful only when
`exc = none`), and the handle at the point of return or raise. -/
structure StderrRes where
  exc : Option String
  out : String
  module : Module
deriving DecidableEq

/-- `.read()` on a Popen `stderr` attribute: raises `AttributeError` when
the attribute is `None` (the process was spawned without `stderr=PIPE`). -/
def stderrRead : Option String → Except String String
  | none => .error "AttributeError"
  | some s => .ok s

/-- The apology string appended by the dead `else` branch of
`Module.stderr`. -/
def brokenMsg : String :=
  "\n\nReading the output of a currently running module is currently broken, sorry."

/-- The tail of `Module.stderr` past the two sentinel early returns:
`alive2` is the verdict of the second `self.is_alive()` call and `m2` the
handle after it. -/
def stderrTail (alive2 : Bool) (m2 : Module) : StderrRes :=
  if m2.started && !alive2 then
    match m2._process with
    | none => { exc := some "AttributeError", out := "", module := m2 }
    | some p =>
      match stderrRead p.stderrPipe with
      | .error e => { exc := some e, out := "", module := m2 }
      | .ok s =>
        { exc := none, out := m2._log ++ s,
          module := { m2 with _log := m2._log ++ s } }
  else
    match m2._last_process with
    | some p =>
      match stderrRead p.stderrPipe with
      | .error e => { exc := some e, out := "", module := m2 }
      | .ok s =>
        { exc := none, out := m2._log ++ s,
          module := { m2 with _log := m2._log ++ s } }
    | none =>
      { exc := none, out := m2._log ++ brokenMsg,
        module := { m2 with _log := m2._log ++ brokenMsg } }

/-- `Module.stderr()`: sentinel if alive; sentinel if no process was ever
started; otherwise read buffered stderr of the crashed current process, or
else of the last process, appending to the accumulated `_log`. -/
def Module.stderr (os : OS) (m : Module) : StderrRes :=
  if (m.is_alive os).1 then
    { exc := none, out := "Can't fetch output while running",
      module := (m.is_alive os).2 }
  else if (m.is_alive os).2._process.isNone &&
          (m.is_alive os).2._last_process.isNone then
    { exc := none, out := "Module not started, no output available",
      module := (m.is_alive os).2 }
  else
    stderrTail ((m.is_alive os).2.is_alive os).1 ((m.is_alive os).2.is_alive os).2

/-- The static module list of `manager.py`. -/
def _possible_modules : List String :=
  ["aw-server", "aw-watcher-afk", "aw-watcher-window"]

/-- `modules = {name: Module(name) for name in _possible_modules}`,
as the ordered list of handles. -/
def initModules : List Module := _possible_modules.map Module.init

/-- One evaluation of the filter predicate
`lambda x: x.started and not x.is_alive()` on one handle: whether the
handle is kept, the handle afterwards, and the number of OS liveness polls
performed (Python `and` short-circuits, so `is_alive` — and its poll — only
runs when `started`; `is_alive` itself polls only when a process is
recorded). -/
def guStep (os : OS) (m : Module) : Bool × Module × Nat :=
  if m.started then
    (!(m.is_alive os).1, (m.is_alive os).2,
     if m._process.isSome then 1 else 0)
  else
    (false, m, 0)

/-- `get_unexpected_stops()`: filter the registry's handles; returns the
kept handles, the registry afterwards (the same objects, polled in place),
and the total number of OS liveness polls performed. -/
def get_unexpected_stops (os : OS) : List Module →
    List Module × List Module × Nat
  | [] => ([], [], 0)
  | m :: rest =>
    ((if (guStep os m).1 then
        (guStep os m).2.1 :: (get_unexpected_stops os rest).1
      else (get_unexpected_stops os rest).1),
     (guStep os m).2.1 :: (get_unexpected_stops os rest).2.1,
     (guStep os m).2.2 + (get_unexpected_stops os rest).2.2)

/-- States of a `Module` handle reachable through its public operations,
starting from `Module.__init__`, under arbitrary environments and worlds.
Spawn failures and error exits are included: each operation's result
carries the handle as it is at the point of return or raise. -/
inductive Reach : Module → Prop where
  | init (name : String) : Reach (Module.init name)
  | start (env : Env) (testing : Bool) (w : World) (m : Module) :
      Reach m → Reach (m.start env testing w).module
  | stop (w : World) (m : Module) : Reach m → Reach (m.stop w).module
  | toggle (env : Env) (testing : Bool) (w : World) (m : Module) :
      Reach m → Reach (m.toggle env testing w).module
  | alive (os : OS) (m : Module) : Reach m → Reach (m.is_alive os).2
  | fetchLog (os : OS) (m : Module) : Reach m → Reach (m.stderr os).module

theorem is_alive_of_none (os : OS) (m : Module) (h : m._process = none) :
    m.is_alive os = (false, m) := by
  obtain ⟨n, s, pr, l, lg⟩ := m
  obtain rfl : pr = none := h
  rfl

theorem is_alive_of_some (os : OS) (m : Module) (p : Proc)
    (h : m._process = some p) :
    m.is_alive os =
      ((pollProc os p).returncode.isNone,
       { m with _process := some (pollProc os p) }) := by
  obtain ⟨n, s, pr, l, lg⟩ := m
  obtain rfl : pr = some p := h
  rfl

/-- `is_alive` only refreshes the cached `returncode` of the current
process: every other field, and whether a current process exists at all,
is unchanged. -/
theorem is_alive_frame (os : OS) (m : Module) :
    (m.is_alive os).2.name = m.name ∧
    (m.is_alive os).2.started = m.started ∧
    (m.is_alive os).2._process.isSome = m._process.isSome ∧
    (m.is_alive os).2._last_process = m._last_process ∧
    (m.is_alive os).2._log = m._log := by
  cases hp : m._process with
  | none => simp [is_alive_of_none os m hp, hp]
  | some p => simp [is_alive_of_some os m p hp, hp]

theorem pollProc_idem (os : OS) (p : Proc) :
    pollProc os (pollProc os p) = pollProc os p := by
  unfold pollProc
  by_cases h : p.returncode.isSome <;> simp [h]

/-- Polling is idempotent for a fixed OS state: a second `is_alive` call
returns the same verdict and leaves the handle exactly as the first. -/
theorem is_alive_idem (os : OS) (m : Module) :
    (m.is_alive os).2.is_alive os = m.is_alive os := by
  cases hp : m._process with
  | none => simp [is_alive_of_none os m hp]
  | some p =>
    rw [is_alive_of_some os m p hp]
    rw [is_alive_of_some os _ (pollProc os p) rfl]
    simp [pollProc_idem]

theorem stopFinish_inv (w : World) (m : Module) (evs : List Ev)
    (h : m._process.isSome = m.started) :
    (stopFinish w m evs).module._process.isSome =
      (stopFinish w m evs).module.started := by
  have hf := is_alive_frame w.os m
  unfold stopFinish
  split
  · show (m.is_alive w.os).2._process.isSome = (m.is_alive w.os).2.started
    rw [hf.2.1, hf.2.2.1]; exact h
  · simp

/-- The started/process invariant is preserved by `stop`. -/
theorem stop_inv (w : World) (m : Module)
    (h : m._process.isSome = m.started) :
    (m.stop w).module._process.isSome = (m.stop w).module.started := by
  have hf := is_alive_frame w.os m
  have h2 : (m.is_alive w.os).2._process.isSome =
      (m.is_alive w.os).2.started := by
    rw [hf.2.1, hf.2.2.1]; exact h
  unfold Module.stop
  by_cases hst : m.started = true
  · by_cases hal : (m.is_alive w.os).1 = true
    · cases hp : (m.is_alive w.os).2._process with
      | none =>
        simp only [hst, hal, Bool.not_true, Bool.false_eq_true, if_false, hp]
        simpa [hp] using h2
      | some p =>
        simp only [hst, hal, Bool.not_true, Bool.false_eq_true, if_false, hp]
        apply stopFinish_inv
        have hs : (m.is_alive w.os).2.started = true := by
          rw [← h2, hp]; rfl
        simp [hs]
    · have hal' : (m.is_alive w.os).1 = false := by
        simpa using hal
      simp only [hst, hal', Bool.not_true, Bool.not_false, Bool.false_eq_true,
        if_false, if_true]
      exact stopFinish_inv _ _ _ h2
  · have hst' : m.started = false := by simpa using hst
    simp only [hst', Bool.not_false, if_true]
    rw [h, hst']

/-- The started/process invariant is preserved by `start`. -/
theorem start_inv (env : Env) (testing : Bool) (w : World) (m : Module)
    (h : m._process.isSome = m.started) :
    (m.start env testing w).module._process.isSome =
      (m.start env testing w).module.started := by
  unfold Module.start
  split <;> simp [h]

theorem stderrTail_inv (alive2 : Bool) (m2 : Module)
    (h : m2._process.isSome = m2.started) :
    (stderrTail alive2 m2).module._process.isSome =
      (stderrTail alive2 m2).module.started := by
  unfold stderrTail
  split
  · split
    · exact h
    · split <;> simpa using h
  · split
    · split <;> simpa using h
    · simpa using h

/-- Every reachable handle state satisfies `_process.isSome = started`:
a handle has a current process exactly when its `started` flag is set. -/
theorem reach_inv (m : Module) (h : Reach m) :
    m._process.isSome = m.started := by
  induction h with
  | init name => simp [Module.init]
  | start env testing w m hm ih => exact start_inv env testing w m ih
  | stop w m hm ih => exact stop_inv w m ih
  | toggle env testing w m hm ih =>
    unfold Module.toggle
    split
    · exact stop_inv w m ih
    · exact start_inv env testing w m ih
  | alive os m hm ih =>
    have hf := is_alive_frame os m
    rw [hf.2.1, hf.2.2.1]; exact ih
  | fetchLog os m hm ih =>
    have hf := is_alive_frame os m
    have hf2 := is_alive_frame os (m.is_alive os).2
    have h2 : (m.is_alive os).2._process.isSome =
        (m.is_alive os).2.started := by
      rw [hf.2.1, hf.2.2.1]; exact ih
    have h3 : ((m.is_alive os).2.is_alive os).2._process.isSome =
        ((m.is_alive os).2.is_alive os).2.started := by
      rw [hf2.2.1, hf2.2.2.1]; exact h2
    unfold Module.stderr
    split
    · exact h2
    · split
      · exact h2
      · exact stderrTail_inv _ _ h3

theorem pollProc_pid (os : OS) (p : Proc) : (pollProc os p).pid = p.pid := by
  unfold pollProc; split <;> rfl

theorem waitedProc_pid (os : OS) (p : Proc) :
    (waitedProc os p).pid = p.pid := rfl

theorem terminateWait_exited (os : OS) (pid : Nat) :
    (os.terminateWait pid).exited pid = some ((os.exited pid).getD (-15)) := by
  simp [OS.terminateWait]

/-- Concrete fixtures used by the witnesses: a Linux environment with no
file in either candidate directory where every spawn succeeds with pid 7,
an OS where no process has exited, and a fresh supervisor process. -/
def envW : Env :=
  { platform := "Linux", isfile := fun _ => false,
    currDir := "/opt/aw/aw_qt", parentDir := "/opt/aw",
    spawnPid := fun _ => some 7 }

def osW : OS := { exited := fun _ => none }

def wW : World := { os := osW, sup := { pid := 3, pgid := 2 } }

/-- A handle whose module was started and whose process (pid 7) is still
running under `osW`. -/
def mW : Module :=
  { name := "aw-server", started := true,
    _process := some (spawnedProc 7 3), _last_process := none, _log := "" }

/-- C5: for every module name, `_locate_executable(name)` returns the full
path of a file named `name` in the supervisor's own install directory if
one exists there, otherwise the full path in that directory's parent if
one exists there, otherwise the bare name; it is a total function, so no
error is raised, also in the bare-name fallback case. -/
theorem locate_executable_spec (env : Env) (name : String) :
    _locate_executable env name =
      (if env.isfile (joinPath env.currDir name) then
        [joinPath env.currDir name]
      else if env.isfile (joinPath env.parentDir name) then
        [joinPath env.parentDir name]
      else [name]) := by
  by_cases h1 : env.isfile (joinPath env.currDir name) <;>
    by_cases h2 : env.isfile (joinPath env.parentDir name) <;>
      simp [_locate_executable, findFirstFile, h1, h2]

/-- C3: `is_alive()` returns `false` when no process was ever recorded,
and otherwise reports exactly whether the OS says the process has not
exited (the hypothesis says the cached `returncode`, if any, agrees with
the OS — true of every handle the code builds, since `returncode` is only
ever filled from the OS's exit report); it is a total function, so it
never raises, and calling it again with an unchanged OS returns the same
verdict and leaves the handle unchanged. -/
theorem is_alive_spec (os : OS) (m : Module)
    (hc : ∀ p, m._process = some p →
      p.returncode = none ∨ os.exited p.pid = p.returncode) :
    ((m.is_alive os).1 = true ↔
      ∃ p, m._process = some p ∧ os.exited p.pid = none) ∧
    (m.is_alive os).2.is_alive os = m.is_alive os := by
  refine ⟨?_, is_alive_idem os m⟩
  cases hp : m._process with
  | none => simp [is_alive_of_none os m hp, hp]
  | some p =>
    rw [is_alive_of_some os m p hp]
    cases hr : p.returncode with
    | none =>
      simp only [hp, pollProc, hr, Option.isSome_none, Bool.false_eq_true,
        if_false]
      cases he : os.exited p.pid <;> simp [he]
    | some c =>
      have hx : os.exited p.pid = some c := by
        rcases hc p hp with h | h
        · rw [h] at hr; exact absurd hr (by simp)
        · rw [h, hr]
      simp [pollProc, hr, hp, hx]

/-- Witness for C3 at `mW` under `osW`: the running process is reported
alive, and the repeated call agrees. -/
theorem is_alive_spec_witness :
    (((mW.is_alive osW).1 = true ↔
      ∃ p, mW._process = some p ∧ osW.exited p.pid = none) ∧
     (mW.is_alive osW).2.is_alive osW = mW.is_alive osW) :=
  is_alive_spec osW mW (fun p hp => Or.inl ((Option.some.inj hp) ▸ rfl))

/-- C6: `start(testing)` hands `Popen` exactly the resolved command with a
final `--testing` appended iff `testing` (and nothing else); it succeeds
iff the spawn does; on success `started` becomes `true` and the fresh
process is recorded; on spawn failure the error propagates to the caller
with `started` and `_process` (indeed the whole handle) unchanged —
`started` is only assigned after the spawn has succeeded. -/
theorem start_spec (env : Env) (testing : Bool) (w : World) (m : Module) :
    (m.start env testing w).cmd =
      _locate_executable env m.name ++
        (if testing then ["--testing"] else []) ∧
    ((m.start env testing w).exc = none ↔
      (env.spawnPid (m.start env testing w).cmd).isSome) ∧
    ((m.start env testing w).exc = none →
      (m.start env testing w).module.started = true ∧
      ∀ pid, env.spawnPid (m.start env testing w).cmd = some pid →
        (m.start env testing w).module._process =
          some (spawnedProc pid (setpgrp env.platform w.sup).pgid)) ∧
    ((m.start env testing w).exc ≠ none →
      (m.start env testing w).module.started = m.started ∧
      (m.start env testing w).module._process = m._process ∧
      (m.start env testing w).module = m) := by
  have hcmd : startCmd env testing m.name =
      _locate_executable env m.name ++
        (if testing then ["--testing"] else []) := by
    unfold startCmd; cases testing <;> simp
  unfold Module.start
  cases hs : env.spawnPid (startCmd env testing m.name) with
  | none =>
    refine ⟨hcmd, by simp [hs], ?_, fun _ => ⟨rfl, rfl, rfl⟩⟩
    intro hcon
    exact absurd hcon (by simp)
  | some pid =>
    refine ⟨hcmd, by simp [hs], ?_, fun hcon => absurd rfl hcon⟩
    intro _
    refine ⟨rfl, ?_⟩
    intro pid' hpid'
    rw [hs] at hpid'
    obtain rfl := Option.some.inj hpid'
    rfl

/-- Witness for C6 under `envW` (where every spawn yields pid 7): the cmd
is the bare name plus `--testing`, and the started flag is set. -/
theorem start_spec_witness :
    ((Module.init "aw-server").start envW true wW).cmd =
      _locate_executable envW "aw-server" ++ ["--testing"] ∧
    ((Module.init "aw-server").start envW true wW).module.started = true := by
  have h := start_spec envW true wW (Module.init "aw-server")
  exact ⟨h.1, (h.2.2.1 rfl).1⟩

/-- Fixtures for the C9 counterexample: a Linux supervisor with pid 100 in
group 50, whose spawn yields a child with pid 101. -/
def envC9 : Env :=
  { platform := "Linux", isfile := fun _ => false,
    currDir := "/opt/aw/aw_qt", parentDir := "/opt/aw",
    spawnPid := fun _ => some 101 }

def wC9 : World :=
  { os := { exited := fun _ => none }, sup := { pid := 100, pgid := 50 } }

/-- C9 as stated is false on the code: `start()` calls `os.setpgrp()` in
the SUPERVISOR process before spawning, so the spawned child inherits the
supervisor's (new) process group — here group 100, the supervisor's pid —
and is not placed in a process group of its own (its pgid differs from its
pid). -/
theorem start_own_group_counterexample :
    (((Module.init "aw-server").start envC9 false wC9).module._process.map
        Proc.pgid = some 100) ∧
    (((Module.init "aw-server").start envC9 false wC9).module._process.map
        Proc.pid = some 101) ∧
    (((Module.init "aw-server").start envC9 false wC9).module._process.map
        Proc.pgid ≠
      ((Module.init "aw-server").start envC9 false wC9).module._process.map
        Proc.pid) := by
  refine ⟨rfl, rfl, ?_⟩
  decide

/-- C9 amended: on non-Windows platforms, every `start()` call first makes
the supervisor process the leader of its own process group (`setpgrp`),
and a successfully spawned child inherits that group: child and supervisor
share the process group whose id is the supervisor's pid, isolating both
from the supervisor's original process group; the child is not given a
group of its own. -/
theorem start_pgroup_spec (env : Env) (testing : Bool) (w : World)
    (m : Module) (hplat : env.platform ≠ "Windows") :
    (m.start env testing w).world.sup.pgid = w.sup.pid ∧
    (∀ p, (m.start env testing w).exc = none →
      (m.start env testing w).module._process = some p →
      p.pgid = w.sup.pid) := by
  have hsp : setpgrp env.platform w.sup = { w.sup with pgid := w.sup.pid } := by
    unfold setpgrp; rw [if_neg hplat]
  unfold Module.start
  cases hs : env.spawnPid (startCmd env testing m.name) <;>
    simp [hsp, spawnedProc]

/-- Witness for the amended C9 under `envC9`: the supervisor becomes group
leader (group id 100 equals its own pid) and the child inherits group
100. -/
theorem start_pgroup_spec_witness :
    (((Module.init "aw-server").start envC9 false wC9).world.sup.pgid =
      wC9.sup.pid) ∧
    (spawnedProc 101 100).pgid = wC9.sup.pid := by
  have h := start_pgroup_spec envC9 false wC9 (Module.init "aw-server")
    (by decide)
  exact ⟨h.1, h.2 (spawnedProc 101 100) rfl rfl⟩

theorem pollProc_of_some (os : OS) (p : Proc) (c : Int)
    (h : p.returncode = some c) : pollProc os p = p := by
  unfold pollProc
  rw [if_pos]
  rw [h]; rfl

theorem alive_true_proc (os : OS) (m : Module)
    (h : (m.is_alive os).1 = true) :
    ∃ p, m._process = some p ∧ (pollProc os p).returncode = none := by
  cases hp : m._process with
  | none => rw [is_alive_of_none os m hp] at h; exact absurd h (by simp)
  | some p =>
    refine ⟨p, rfl, ?_⟩
    rw [is_alive_of_some os m p hp] at h
    simpa using h

theorem is_alive_proc_pid (os : OS) (m : Module) :
    (m.is_alive os).2._process.map Proc.pid = m._process.map Proc.pid := by
  cases hp : m._process with
  | none => simp [is_alive_of_none os m hp, hp]
  | some p => simp [is_alive_of_some os m p hp, hp, pollProc_pid]

/-- `stopFinish` on a handle whose current process is recorded dead: the
assertion passes and the state is cleared, the dead process moving into
`_last_process`. -/
theorem stopFinish_dead (w : World) (m : Module) (evs : List Ev) (p : Proc)
    (c : Int) (hp : m._process = some p) (hc : p.returncode = some c) :
    stopFinish w m evs =
      { exc := none,
        module := { m with _last_process := some p, _process := none,
                           started := false },
        world := w, evs := evs } := by
  unfold stopFinish
  rw [is_alive_of_some w.os m p hp, pollProc_of_some w.os p c hc]
  rw [if_neg (by simp [hc])]

/-- What `stop()` computes on a started handle whose process is alive:
terminate, wait (the OS then reports the process exited), pass the
assertion, and clear the state, retaining the waited-on process in
`_last_process`. -/
theorem stop_alive_eq (w : World) (m : Module) (p0 : Proc)
    (hst : m.started = true) (hp0 : m._process = some p0)
    (hpoll : (pollProc w.os p0).returncode = none) :
    m.stop w =
      { exc := none,
        module := { m with
                    started := false, _process := none,
                    _last_process := some (waitedProc
                      (w.os.terminateWait (pollProc w.os p0).pid)
                      (pollProc w.os p0)) },
        world := { w with os := w.os.terminateWait (pollProc w.os p0).pid },
        evs := [] } := by
  have hal : (m.is_alive w.os).1 = true := by
    rw [is_alive_of_some w.os m p0 hp0]
    simpa using hpoll
  have hpw : (waitedProc (w.os.terminateWait (pollProc w.os p0).pid)
      (pollProc w.os p0)).returncode =
      some ((w.os.exited (pollProc w.os p0).pid).getD (-15)) := by
    simp [waitedProc, hpoll, terminateWait_exited, Option.orElse]
  have hsc : (m.is_alive w.os).2._process = some (pollProc w.os p0) := by
    rw [is_alive_of_some w.os m p0 hp0]
  unfold Module.stop
  rw [if_neg (by simp [hst])]
  rw [if_neg (by simp [hal])]
  rw [hsc]
  show stopFinish _ _ [] = _
  rw [stopFinish_dead _ _ []
    (waitedProc (w.os.terminateWait (pollProc w.os p0).pid)
      (pollProc w.os p0))
    ((w.os.exited (pollProc w.os p0).pid).getD (-15)) rfl hpw]
  rw [is_alive_of_some w.os m p0 hp0]

/-- What `stop()` computes on a started handle whose process is not alive
(crashed, or no process recorded): a warning, then the assertion passes
and the state is cleared, the (polled) dead process moving into
`_last_process`. -/
theorem stop_dead_eq (w : World) (m : Module)
    (hst : m.started = true) (hal : (m.is_alive w.os).1 = false) :
    m.stop w =
      { exc := none,
        module := { (m.is_alive w.os).2 with
                    _last_process := (m.is_alive w.os).2._process,
                    _process := none, started := false },
        world := w, evs := [Ev.warnNotRunning] } := by
  have hid1 : ((m.is_alive w.os).2.is_alive w.os).1 = (m.is_alive w.os).1 := by
    rw [is_alive_idem]
  have hid2 : ((m.is_alive w.os).2.is_alive w.os).2 = (m.is_alive w.os).2 := by
    rw [is_alive_idem]
  unfold Module.stop stopFinish
  simp only [hst, Bool.not_true, Bool.false_eq_true, if_false, hal,
    Bool.not_false, if_true, hid1, hid2]

/-- C1: for every handle with `started = true`, `stop()` returns without
raising — in particular the `assert not self.is_alive()` never fails —
with `started` cleared, the current process moved into `_last_process`
(same process identity), `_process` cleared, and `is_alive()` returning
`false` afterwards; if the process was alive it has been terminated and
waited on (the OS reports it exited and its status is reaped) with no
warning, and if it had already died only a warning is logged before the
state is cleared all the same. -/
theorem stop_spec (w : World) (m : Module) (hst : m.started = true) :
    (m.stop w).exc = none ∧
    (m.stop w).module.started = false ∧
    (m.stop w).module._process = none ∧
    (m.stop w).module._last_process.map Proc.pid =
      m._process.map Proc.pid ∧
    ((m.stop w).module.is_alive (m.stop w).world.os).1 = false ∧
    ((m.is_alive w.os).1 = true →
      (m.stop w).evs = [] ∧
      (∀ p, m._process = some p →
        ((m.stop w).world.os.exited p.pid).isSome) ∧
      (∀ q, (m.stop w).module._last_process = some q →
        q.returncode.isSome)) ∧
    ((m.is_alive w.os).1 = false →
      (m.stop w).evs = [Ev.warnNotRunning]) := by
  by_cases hal : (m.is_alive w.os).1 = true
  · obtain ⟨p0, hp0, hpoll⟩ := alive_true_proc w.os m hal
    rw [stop_alive_eq w m p0 hst hp0 hpoll]
    refine ⟨rfl, rfl, rfl, ?_, rfl, ?_, ?_⟩
    · rw [hp0]
      simp [waitedProc_pid, pollProc_pid]
    · intro _
      refine ⟨rfl, ?_, ?_⟩
      · intro p hp
        rw [hp0] at hp
        obtain rfl := Option.some.inj hp
        simp [pollProc_pid, terminateWait_exited]
      · intro q hq
        obtain rfl := Option.some.inj hq
        simp [waitedProc, hpoll, terminateWait_exited, Option.orElse,
          pollProc_pid]
    · intro hba
      rw [hal] at hba
      exact absurd hba (by simp)
  · have hal' : (m.is_alive w.os).1 = false := by simpa using hal
    rw [stop_dead_eq w m hst hal']
    refine ⟨rfl, rfl, rfl, is_alive_proc_pid w.os m, rfl, ?_, fun _ => rfl⟩
    intro hba
    rw [hal'] at hba
    exact absurd hba (by simp)

/-- Witness for C1 at `mW` (started, process 7 alive under `osW`): `stop`
returns without raising, clears the flag and the process, and the handle
is not alive afterwards. -/
theorem stop_spec_witness :
    (mW.stop wW).exc = none ∧
    (mW.stop wW).module.started = false ∧
    ((mW.stop wW).module.is_alive (mW.stop wW).world.os).1 = false := by
  have h := stop_spec wW mW rfl
  exact ⟨h.1, h.2.1, h.2.2.2.2.1⟩

/-- C7: on a reachable handle with `started = false` — in particular one
on which `start()` was never called — `stop()` logs only the not-started
warning and returns without raising, leaving every field (`started`,
`_process`, `_last_process`, `_log`) unchanged, and `is_alive()` still
returns `false` afterwards. -/
theorem stop_not_started_spec (w : World) (m : Module)
    (hr : Reach m) (hst : m.started = false) :
    m.stop w = { exc := none, module := m, world := w,
                 evs := [Ev.warnNotStarted] } ∧
    ((m.stop w).module.is_alive w.os).1 = false := by
  have hnp : m._process = none := by
    have hi := reach_inv m hr
    rw [hst] at hi
    cases hp : m._process with
    | none => rfl
    | some p => rw [hp] at hi; exact absurd hi (by simp)
  have heq : m.stop w = { exc := none, module := m, world := w,
                          evs := [Ev.warnNotStarted] } := by
    unfold Module.stop
    rw [if_pos (by simp [hst])]
  refine ⟨heq, ?_⟩
  rw [heq]
  show (m.is_alive w.os).1 = false
  rw [is_alive_of_none w.os m hnp]

/-- Witness for C7 on the freshly initialized `aw-server` handle: `stop()`
before any `start()` is a warning-only no-op and the handle stays not
alive. -/
theorem stop_not_started_spec_witness :
    ((Module.init "aw-server").stop wW =
      { exc := none, module := Module.init "aw-server", world := wW,
        evs := [Ev.warnNotStarted] }) ∧
    (((Module.init "aw-server").stop wW).module.is_alive wW.os).1 = false :=
  stop_not_started_spec wW (Module.init "aw-server")
    (Reach.init "aw-server") rfl

/-- C10: the invariant "`started = true` implies `currentProcess` is
non-empty" holds initially and on every reachable handle — reachability
starts at `__init__` and is closed under `start` (spawn failures
included), `stop` (never-started and crashed handles included), `toggle`,
`is_alive` and `stderr` — equivalently, a reachable handle with no current
process always has `started = false`. -/
theorem started_process_invariant (m : Module) (hr : Reach m) :
    (m.started = true → m._process.isSome = true) ∧
    (m._process = none → m.started = false) := by
  have h := reach_inv m hr
  constructor
  · intro hs; rw [h, hs]
  · intro hp; rw [← h, hp]; rfl

/-- Witness for C10 at the initial handle: it has no current process, and
the theorem yields `started = false` there. -/
theorem started_process_invariant_witness :
    (Module.init "aw-server").started = false :=
  (started_process_invariant (Module.init "aw-server")
    (Reach.init "aw-server")).2 rfl

theorem toggle_started_eq (env : Env) (testing : Bool) (w : World)
    (m : Module) (hst : m.started = true) :
    m.toggle env testing w = m.stop w := by
  unfold Module.toggle
  rw [if_pos hst]

theorem toggle_not_started_eq (env : Env) (testing : Bool) (w : World)
    (m : Module) (hst : m.started = false) :
    m.toggle env testing w =
      { exc := (m.start env testing w).exc,
        module := (m.start env testing w).module,
        world := (m.start env testing w).world, evs := [] } := by
  unfold Module.toggle
  rw [if_neg (by simp [hst])]

theorem start_ok_started (env : Env) (testing : Bool) (w : World)
    (m : Module) (h : (m.start env testing w).exc = none) :
    (m.start env testing w).module.started = true := by
  unfold Module.start at h ⊢
  cases hs : env.spawnPid (startCmd env testing m.name)
  · simp [hs] at h
  · rfl

theorem stop_ok_not_started (w : World) (m : Module)
    (h : (m.stop w).exc = none) :
    (m.stop w).module.started = false := by
  by_cases hst : m.started = true
  · by_cases hal : (m.is_alive w.os).1 = true
    · obtain ⟨p0, hp0, hpoll⟩ := alive_true_proc w.os m hal
      rw [stop_alive_eq w m p0 hst hp0 hpoll]
    · have hal' : (m.is_alive w.os).1 = false := by simpa using hal
      rw [stop_dead_eq w m hst hal']
  · have hst' : m.started = false := by simpa using hst
    unfold Module.stop
    rw [if_pos (by simp [hst'])]
    exact hst'

/-- C8: `toggle(testing)` calls `stop()` exactly when `started` is true
and `start(testing)` otherwise; and two successive `toggle()` calls whose
inner operations complete normally return the handle's `started` flag to
its original value. -/
theorem toggle_twice_spec (env : Env) (testing : Bool) (w : World)
    (m : Module)
    (h1 : (m.toggle env testing w).exc = none)
    (h2 : ((m.toggle env testing w).module.toggle env testing
            (m.toggle env testing w).world).exc = none) :
    (m.started = true → m.toggle env testing w = m.stop w) ∧
    (m.started = false →
      (m.toggle env testing w).module = (m.start env testing w).module) ∧
    ((m.toggle env testing w).module.toggle env testing
      (m.toggle env testing w).world).module.started = m.started := by
  by_cases hst : m.started = true
  · have ht1 := toggle_started_eq env testing w m hst
    have hm1 : (m.toggle env testing w).module.started = false := by
      rw [ht1]
      exact stop_ok_not_started w m (by rw [← ht1]; exact h1)
    have ht2 := toggle_not_started_eq env testing
      (m.toggle env testing w).world (m.toggle env testing w).module hm1
    refine ⟨fun _ => ht1, fun hf => absurd hst (by simp [hf]), ?_⟩
    rw [ht2] at h2 ⊢
    rw [start_ok_started env testing _ _ h2, hst]
  · have hst' : m.started = false := by simpa using hst
    have ht1 := toggle_not_started_eq env testing w m hst'
    have hm1 : (m.toggle env testing w).module.started = true := by
      rw [ht1]
      exact start_ok_started env testing w m (by rw [ht1] at h1; exact h1)
    have ht2 := toggle_started_eq env testing
      (m.toggle env testing w).world (m.toggle env testing w).module hm1
    refine ⟨fun hf => absurd hf (by simp [hst']), fun _ => by rw [ht1], ?_⟩
    rw [ht2] at h2 ⊢
    rw [stop_ok_not_started _ _ h2, hst']

/-- Witness for C8: starting from the fresh `aw-server` handle under
`envW` (both inner operations succeed), two toggles restore
`started = false`. -/
theorem toggle_twice_spec_witness :
    (((Module.init "aw-server").toggle envW false wW).module.toggle envW false
        ((Module.init "aw-server").toggle envW false wW).world).module.started =
      (Module.init "aw-server").started := by
  have h := toggle_twice_spec envW false wW (Module.init "aw-server")
    rfl rfl
  exact h.2.2

theorem guStep_module (os : OS) (m : Module) :
    (guStep os m).2.1 = if m.started then (m.is_alive os).2 else m := by
  unfold guStep
  by_cases hst : m.started = true <;> simp [hst]

theorem guStep_count (os : OS) (m : Module) :
    (guStep os m).2.2 =
      if m.started && m._process.isSome then 1 else 0 := by
  unfold guStep
  by_cases hst : m.started = true <;> simp [hst]

/-- The filter predicate evaluated on the post-poll handle agrees with the
keep-decision `guStep` made: polling is idempotent and touches neither
`started` nor whether a process exists. -/
theorem guStep_keep_pred (os : OS) (m : Module) :
    ((guStep os m).2.1.started && !((guStep os m).2.1.is_alive os).1) =
      (guStep os m).1 := by
  by_cases hst : m.started = true
  · have hfr := is_alive_frame os m
    have hid : ((m.is_alive os).2.is_alive os).1 = (m.is_alive os).1 := by
      rw [is_alive_idem]
    simp [guStep, hst, hfr.2.1, hid]
  · have hst' : m.started = false := by simpa using hst
    simp [guStep, hst']

/-- The C2 counterexample registry state: the freshly initialized
`modules` registry of `manager.py`, three handles, none started. -/
theorem get_unexpected_stops_counterexample :
    (get_unexpected_stops osW initModules).2.2 = 0 ∧
    initModules.length = 3 ∧
    (get_unexpected_stops osW initModules).2.2 ≠ initModules.length := by
  refine ⟨rfl, rfl, ?_⟩
  decide

/-- C2 amended: a handle (in its post-poll state) is in the result exactly
when `started = true` and `is_alive()` returns `false`; the registry
afterwards holds the same handles in order, the unstarted ones completely
untouched and the started ones changed only by the liveness poll; and
exactly one OS liveness poll is performed per handle with `started = true`
and a recorded process — handles with `started = false` are skipped by the
short-circuiting `and` of the filter and undergo no poll and no state
change at all. -/
theorem get_unexpected_stops_spec (os : OS) (ms : List Module) :
    (get_unexpected_stops os ms).1 =
      ((get_unexpected_stops os ms).2.1).filter
        (fun x => x.started && !(x.is_alive os).1) ∧
    (get_unexpected_stops os ms).2.1 =
      ms.map (fun x => if x.started then (x.is_alive os).2 else x) ∧
    (get_unexpected_stops os ms).2.2 =
      (ms.filter (fun x => x.started && x._process.isSome)).length := by
  induction ms with
  | nil => exact ⟨rfl, rfl, rfl⟩
  | cons m rest ih =>
    obtain ⟨ih1, ih2, ih3⟩ := ih
    refine ⟨?_, ?_, ?_⟩
    · show (if (guStep os m).1 then
          (guStep os m).2.1 :: (get_unexpected_stops os rest).1
        else (get_unexpected_stops os rest).1) = _
      show _ = ((guStep os m).2.1 ::
        (get_unexpected_stops os rest).2.1).filter _
      rw [List.filter_cons]
      simp only [guStep_keep_pred, ih1]
    · show (guStep os m).2.1 :: (get_unexpected_stops os rest).2.1 = _
      rw [List.map_cons]
      simp only [guStep_module, ih2]
    · show (guStep os m).2.2 + (get_unexpected_stops os rest).2.2 = _
      rw [List.filter_cons]
      by_cases hp : (m.started && m._process.isSome) = true
      · simp [guStep_count, hp, ih3, Nat.add_comm]
      · simp [guStep_count, hp, ih3]

/-- Fixtures for C4: an OS under which every process has exited with
status 1, and a started `aw-server` handle whose process (pid 7) has
therefore crashed. -/
def osC4 : OS := { exited := fun _ => some 1 }

def mC4 : Module :=
  { name := "aw-server", started := true,
    _process := some (spawnedProc 7 3), _last_process := none, _log := "" }

/-- C4: the code is wrong here.  For a started handle whose process has
exited (`self.started and not self.is_alive()`), `stderr()` evaluates
`self._process.stderr.read()`; but `start()` spawns every process without
`stderr=PIPE` (deliberately, to avoid pipe-buffer deadlock), so the Popen
object's `stderr` attribute is `None` and the read raises
`AttributeError` — the call raises instead of appending buffered error
output and returning the accumulated log, contradicting the claim and the
function's own docstring ("Useful if you want to retrieve logs written to
stderr"). -/
theorem stderr_crashed_raises :
    (mC4.stderr osC4).exc = some "AttributeError" := rfl

end AwQt
